import Mathlib

/-!
Verification of the receipt-tracking app's persistence core: the dual-backend
storage adapter (SQLite on mobile, AsyncStorage document blob on web), the
zustand reconciling store, the Gemini extraction post-processing, and the
insights aggregator.  Each definition is a shallow embedding of the
corresponding TypeScript function; JS numbers are modelled as rationals and
absent/undefined values as `Option`.  JS truthiness (`x || y`) is modelled by
`truthyStr` / `truthyNum` (empty string and zero are falsy).
-/

namespace ReceiptApp

/-- JS truthiness projection for string-valued expressions: `undefined`,
`null` and `""` are falsy. -/
def truthyStr : Option String → Option String
  | some s => if s = "" then none else some s
  | none => none

/-- JS truthiness projection for number-valued expressions: `undefined`,
`null` and `0` are falsy (NaN is only reachable here through absent values,
which `none` already covers). -/
def truthyNum : Option ℚ → Option ℚ
  | some q => if q = 0 then none else some q
  | none => none

/-- `ReceiptItem` from `types/receipt.ts`, with every field optional the way
runtime payloads actually are (drafts routinely omit `id` or `category`). -/
structure Item where
  id : Option String
  name : Option String
  quantity : Option ℚ
  price : Option ℚ
  category : Option String
deriving DecidableEq

/-- The canonical `Receipt` record shape (`types/receipt.ts`), unifying the
current field names with the declared legacy aliases (`store`, `subtotal`,
`tax`, `total`).  Web storage vends values of exactly this raw shape;
the SQLite read path fills the current-name fields.  Timestamps are
abstracted to a monotone `Nat` clock. -/
structure Receipt where
  id : String
  merchantName : Option String
  date : Option String
  totalAmount : Option ℚ
  taxAmount : Option ℚ
  imageUri : Option String
  category : Option String
  items : List Item
  createdAt : Option Nat
  updatedAt : Option Nat
  store : Option String
  subtotal : Option ℚ
  tax : Option ℚ
  total : Option ℚ
deriving DecidableEq

/-- The untyped `receiptData: any` payload accepted by
`saveReceiptToDatabase` / `updateReceiptInDatabase` (services/database.ts). -/
structure Draft where
  merchantName : Option String
  date : Option String
  totalAmount : Option ℚ
  total : Option ℚ
  taxAmount : Option ℚ
  tax : Option ℚ
  imageUri : Option String
  category : Option String
  items : Option (List Item)
deriving DecidableEq

/-- One row of the SQLite `receipts` table. -/
structure DbReceiptRow where
  id : Nat
  merchant_name : String
  date : String
  total_amount : ℚ
  tax_amount : ℚ
  image_uri : Option String
  category : String
  created_at : Nat
  updated_at : Nat
deriving DecidableEq

/-- One row of the SQLite `receipt_items` table.  Every insert in the source
supplies a non-null name/quantity/price/category, so those columns are
modelled as non-optional. -/
structure DbItemRow where
  id : Nat
  receipt_id : Nat
  name : String
  quantity : ℚ
  price : ℚ
  category : String
deriving DecidableEq

/-- The mobile (SQLite) backend state: both tables, the AUTOINCREMENT
counters, the `CURRENT_TIMESTAMP` clock and the current date string used by
`new Date().toISOString().split('T')[0]` defaults. -/
structure SqliteDb where
  receipts : List DbReceiptRow
  receipt_items : List DbItemRow
  nextReceiptId : Nat
  nextItemId : Nat
  now : Nat
  todayStr : String
deriving DecidableEq

/-- The web backend state: the AsyncStorage `receipts` key (absent until
first write), plus the clock and current date string. -/
structure WebState where
  stored : Option (List Receipt)
  now : Nat
  todayStr : String
deriving DecidableEq

/-- `SELECT * FROM receipt_items WHERE receipt_id = ?` row-to-item mapping
inside `getAllReceiptsFromDatabase` / `getReceiptById`. -/
def rowToItem (r : DbItemRow) : Item :=
  { id := some (toString r.id), name := some r.name, quantity := some r.quantity,
    price := some r.price, category := some r.category }

/-- Items attached to a receipt row on read (the per-receipt
`receipt_items` query). -/
def itemsFor (db : SqliteDb) (rid : Nat) : List Item :=
  (db.receipt_items.filter (fun it => it.receipt_id = rid)).map rowToItem

/-- The row-to-`Receipt` mapping used by both SQLite read paths; only
current field names are produced (the schema has no legacy columns). -/
def rowToReceipt (db : SqliteDb) (r : DbReceiptRow) : Receipt :=
  { id := toString r.id, merchantName := some r.merchant_name, date := some r.date,
    totalAmount := some r.total_amount, taxAmount := some r.tax_amount,
    imageUri := r.image_uri, category := some r.category,
    items := itemsFor db r.id, createdAt := some r.created_at,
    updatedAt := some r.updated_at,
    store := none, subtotal := none, tax := none, total := none }

/-- `ORDER BY created_at DESC`: row `a` may precede row `b` when
`b.created_at ≤ a.created_at`. -/
def rowLaterEq (a b : DbReceiptRow) : Prop := b.created_at ≤ a.created_at

instance : DecidableRel rowLaterEq := fun a b => Nat.decLe b.created_at a.created_at

instance : IsTotal DbReceiptRow rowLaterEq := ⟨fun a b => Nat.le_total b.created_at a.created_at⟩

instance : IsTrans DbReceiptRow rowLaterEq := ⟨fun _ _ _ hab hbc => Nat.le_trans hbc hab⟩

/-- `getAllReceiptsFromDatabase`, mobile branch: all receipt rows ordered by
`created_at DESC`, each with its items attached. -/
def getAllReceiptsMobile (db : SqliteDb) : List Receipt :=
  (List.insertionSort rowLaterEq db.receipts).map (rowToReceipt db)

/-- `getAllReceiptsFromDatabase`, web branch:
`receiptsJson ? JSON.parse(receiptsJson) : []` — the stored array verbatim. -/
def getAllReceiptsWeb (st : WebState) : List Receipt :=
  st.stored.getD []

/-- Digit-list accumulator for `parseId`. -/
def parseIntNat : List Char → Nat → Option Nat
  | [], acc => some acc
  | c :: rest, acc =>
    if c.isDigit then parseIntNat rest (acc * 10 + (c.toNat - 48)) else none

/-- Executable model of `parseInt` applied to receipt-id strings: an
all-digit string parses to its number, anything else (empty or
non-numeric) is NaN, which matches no row. -/
def parseId (s : String) : Option Nat :=
  match s.data with
  | [] => none
  | cs => parseIntNat cs 0

/-- `getReceiptById`, web branch: `receipts.find(r => r.id === id) || null`. -/
def getByIdWeb (id : String) (st : WebState) : Option Receipt :=
  (st.stored.getD []).find? (fun r => r.id = id)

/-- `getReceiptById`, mobile branch: `SELECT * FROM receipts WHERE id =
parseInt(id)` (no match for a non-numeric id), items attached on hit. -/
def getByIdMobile (id : String) (db : SqliteDb) : Option Receipt :=
  (db.receipts.find? (fun row => parseId id = some row.id)).map (rowToReceipt db)

/-- The item-insert loop shared by `saveReceiptToDatabase` and
`updateReceiptInDatabase` (mobile): each `runSync` INSERT applies
`item.name || 'Unknown Item'`, `item.quantity || 1`, `Number(item.price || 0)`,
`item.category || 'Other'` and draws a fresh AUTOINCREMENT id.  Returns the
inserted rows together with the advanced id counter. -/
def insertItemRows : List Item → Nat → Nat → List DbItemRow × Nat
  | [], nextId, _ => ([], nextId)
  | it :: rest, nextId, rid =>
    let row : DbItemRow :=
      { id := nextId, receipt_id := rid,
        name := (truthyStr it.name).getD "Unknown Item",
        quantity := (truthyNum it.quantity).getD 1,
        price := (truthyNum it.price).getD 0,
        category := (truthyStr it.category).getD "Other" }
    let tail := insertItemRows rest (nextId + 1) rid
    (row :: tail.1, tail.2)

/-- The default substitution block at the top of `saveReceiptToDatabase`
(lines 215-221), producing the values actually persisted. -/
structure SaveFields where
  merchantName : String
  date : String
  totalAmount : ℚ
  taxAmount : ℚ
  imageUri : Option String
  category : String
  items : List Item
deriving DecidableEq

def saveDefaults (d : Draft) (today : String) : SaveFields :=
  { merchantName := (truthyStr d.merchantName).getD "Unknown Store",
    date := (truthyStr d.date).getD today,
    totalAmount := ((truthyNum d.totalAmount).orElse (fun _ => truthyNum d.total)).getD 0,
    taxAmount := (truthyNum d.taxAmount).getD 0,
    imageUri := truthyStr d.imageUri,
    category := (truthyStr d.category).getD "Other",
    items := d.items.getD [] }

/-- `saveReceiptToDatabase`, mobile branch: INSERT the receipt row
(auto-assigned id, backend timestamps) then INSERT each item row. -/
def saveMobile (d : Draft) (db : SqliteDb) : SqliteDb :=
  let f := saveDefaults d db.todayStr
  let rid := db.nextReceiptId
  let row : DbReceiptRow :=
    { id := rid, merchant_name := f.merchantName, date := f.date,
      total_amount := f.totalAmount, tax_amount := f.taxAmount,
      image_uri := f.imageUri, category := f.category,
      created_at := db.now, updated_at := db.now }
  { db with receipts := db.receipts ++ [row],
            receipt_items := db.receipt_items ++ (insertItemRows f.items db.nextItemId rid).1,
            nextReceiptId := rid + 1,
            nextItemId := (insertItemRows f.items db.nextItemId rid).2,
            now := db.now + 1 }

/-- `saveReceiptToDatabase`, web branch: build `newReceipt` with current
field names only and `receipts.push(newReceipt)` (append at the end).  The
`(Date.now() + Math.random()).toString()` id is modelled by the state
clock. -/
def saveWeb (d : Draft) (st : WebState) : WebState :=
  let f := saveDefaults d st.todayStr
  let newReceipt : Receipt :=
    { id := toString st.now, merchantName := some f.merchantName,
      date := some f.date, totalAmount := some f.totalAmount,
      taxAmount := some f.taxAmount, imageUri := f.imageUri,
      category := some f.category, items := f.items,
      createdAt := some st.now, updatedAt := some st.now,
      store := none, subtotal := none, tax := none, total := none }
  { st with stored := some ((st.stored.getD []) ++ [newReceipt]), now := st.now + 1 }

/-- The fallback block shared by both branches of
`updateReceiptInDatabase` (lines 331-338): every omitted field falls back to
the existing record, then to the documented default. -/
def updateFallback (d : Draft) (existing : Receipt) (today : String) : SaveFields :=
  { merchantName :=
      ((truthyStr d.merchantName).orElse (fun _ => truthyStr existing.merchantName)).getD "Unknown Store",
    date := ((truthyStr d.date).orElse (fun _ => truthyStr existing.date)).getD today,
    totalAmount :=
      ((truthyNum d.totalAmount).orElse (fun _ =>
        (truthyNum d.total).orElse (fun _ => truthyNum existing.totalAmount))).getD 0,
    taxAmount :=
      ((truthyNum d.taxAmount).orElse (fun _ =>
        (truthyNum d.tax).orElse (fun _ => truthyNum existing.taxAmount))).getD 0,
    imageUri := d.imageUri.orElse (fun _ => existing.imageUri),
    category := ((truthyStr d.category).orElse (fun _ => truthyStr existing.category)).getD "Other",
    items := d.items.getD existing.items }

/-- The web update's spread patch: normalized fields over the stored
record (its legacy fields survive), `updatedAt` refreshed. -/
def applyUpdWeb (f : SaveFields) (now : Nat) (r : Receipt) : Receipt :=
  { r with merchantName := some f.merchantName, date := some f.date,
           totalAmount := some f.totalAmount, taxAmount := some f.taxAmount,
           imageUri := f.imageUri, category := some f.category,
           items := f.items, updatedAt := some now }

/-- The mobile UPDATE statement applied to one row: rows with the matching
id get the normalized fields and a refreshed `updated_at`. -/
def applyUpdRow (f : SaveFields) (now : Nat) (n : Nat) (r : DbReceiptRow) : DbReceiptRow :=
  if r.id = n then
    { r with merchant_name := f.merchantName, date := f.date,
             total_amount := f.totalAmount, tax_amount := f.taxAmount,
             image_uri := f.imageUri, category := f.category,
             updated_at := now }
  else r

/-- Replace the first element satisfying `p` (the web update's
`receipts[index] = {...receipts[index], ...}` after `findIndex`). -/
def updateFirst (p : α → Bool) (f : α → α) : List α → List α
  | [] => []
  | a :: rest => if p a then f a :: rest else a :: updateFirst p f rest

/-- `updateReceiptInDatabase`, web branch: throws `Receipt not found` when
`getReceiptById` misses (before any write); otherwise spreads the normalized
fields over the stored record at its index (legacy fields on the stored
record survive the spread) and refreshes `updatedAt`. -/
def updateWeb (id : String) (d : Draft) (st : WebState) : Except String WebState :=
  match getByIdWeb id st with
  | none => Except.error "Receipt not found"
  | some existing =>
    let f := updateFallback d existing st.todayStr
    let patched := updateFirst (fun r => r.id = id) (applyUpdWeb f st.now) (st.stored.getD [])
    Except.ok { st with stored := some patched, now := st.now + 1 }

/-- `updateReceiptInDatabase`, mobile branch: `getReceiptById` first (throw
`Receipt not found` before any write), then UPDATE the receipt row, DELETE
every `receipt_items` row with that `receipt_id`, and INSERT the new item
set.  The matched row's numeric id is exactly `parseInt(id)` by the lookup
condition, so the WHERE clauses are keyed by it. -/
def updateMobile (id : String) (d : Draft) (db : SqliteDb) : Except String SqliteDb :=
  match db.receipts.find? (fun row => parseId id = some row.id) with
  | none => Except.error "Receipt not found"
  | some row =>
    let existing := rowToReceipt db row
    let f := updateFallback d existing db.todayStr
    let n := row.id
    let receipts := db.receipts.map (applyUpdRow f db.now n)
    let remaining := db.receipt_items.filter (fun it => ¬ it.receipt_id = n)
    Except.ok { db with receipts := receipts,
                        receipt_items := remaining ++ (insertItemRows f.items db.nextItemId n).1,
                        nextItemId := (insertItemRows f.items db.nextItemId n).2,
                        now := db.now + 1 }

/-- `deleteReceiptFromDatabase`, web branch: filter the stored array. -/
def deleteWeb (id : String) (st : WebState) : WebState :=
  { st with stored := some ((st.stored.getD []).filter (fun r => ¬ r.id = id)),
            now := st.now + 1 }

/-- `deleteReceiptFromDatabase`, mobile branch: `DELETE FROM receipts WHERE
id = parseInt(id)`; `ON DELETE CASCADE` (with `PRAGMA foreign_keys = ON`)
removes the items. -/
def deleteMobile (id : String) (db : SqliteDb) : SqliteDb :=
  match parseId id with
  | none => { db with now := db.now + 1 }
  | some n =>
    { db with receipts := db.receipts.filter (fun r => ¬ r.id = n),
              receipt_items := db.receipt_items.filter (fun it => ¬ it.receipt_id = n),
              now := db.now + 1 }

/-- The platform-selected backend (`Platform.OS === 'web'` branch point). -/
inductive Backend where
  | web (st : WebState)
  | mobile (db : SqliteDb)
deriving DecidableEq

def listAllB : Backend → List Receipt
  | .web st => getAllReceiptsWeb st
  | .mobile db => getAllReceiptsMobile db

def getByIdB (id : String) : Backend → Option Receipt
  | .web st => getByIdWeb id st
  | .mobile db => getByIdMobile id db

def saveB (d : Draft) : Backend → Backend
  | .web st => .web (saveWeb d st)
  | .mobile db => .mobile (saveMobile d db)

def updateB (id : String) (d : Draft) : Backend → Except String Backend
  | .web st =>
    match updateWeb id d st with
    | .error e => .error e
    | .ok st2 => .ok (.web st2)
  | .mobile db =>
    match updateMobile id d db with
    | .error e => .error e
    | .ok db2 => .ok (.mobile db2)

def deleteB (id : String) : Backend → Backend
  | .web st => .web (deleteWeb id st)
  | .mobile db => .mobile (deleteMobile id db)

/-! ## Reconciling store (store/receiptStore.ts) -/

/-- The zustand store state relevant to persistence (chat fields omitted). -/
structure StoreState where
  receipts : List Receipt
  isLoading : Bool
  error : Option String
deriving DecidableEq

/-- `loadReceipts` given the outcome of the awaited read: on success set the
receipt list (error was cleared on entry), on failure record the error
string and leave the previous list untouched; `finally` clears
`isLoading` on every path. -/
def loadReceiptsWith (s : StoreState) (result : Except String (List Receipt)) : StoreState :=
  match result with
  | .ok rs => { s with receipts := rs, error := none, isLoading := false }
  | .error _ => { s with error := some "Failed to load receipts", isLoading := false }

/-- `loadReceipts`: `getAllReceiptsFromDatabase` returns normally (its own
try/catch yields `[]` on internal failure), so the awaited result is always
an `ok`. -/
def loadReceipts (s : StoreState) (b : Backend) : StoreState :=
  loadReceiptsWith s (Except.ok (listAllB b))

/-- The sum `receipt.items.reduce((sum, item) => sum + (item.price *
item.quantity), 0)` from `addReceipt`; defined numeric fields are assumed
(the `getD 0` is only the `Option` projection). -/
def itemsTotal (items : List Item) : ℚ :=
  items.foldl (fun sum it => sum + it.price.getD 0 * it.quantity.getD 0) 0

/-- The payload construction inside the store's `addReceipt` (lines 88-104):
derive `totalAmount` from the items when both `totalAmount` and legacy
`total` are falsy and the item list is non-empty, resolve the
merchant/ tax aliases, and default each item's category to `Other`. -/
def addReceiptDraft (r : Receipt) : Draft :=
  let ta0 := (truthyNum r.totalAmount).orElse (fun _ => truthyNum r.total)
  let ta := match ta0 with
    | some v => some v
    | none => if 0 < r.items.length then some (itemsTotal r.items) else none
  { merchantName := some (((truthyStr r.merchantName).orElse (fun _ => truthyStr r.store)).getD "Unknown Store"),
    date := r.date,
    totalAmount := some (ta.getD 0),
    total := none,
    taxAmount := some (((truthyNum r.taxAmount).orElse (fun _ => truthyNum r.tax)).getD 0),
    tax := none,
    imageUri := r.imageUri,
    category := none,
    items := some (r.items.map (fun it => { it with category := some ((truthyStr it.category).getD "Other") })) }

/-- Store `addReceipt`: backend write then full reload.  The second
component is the error re-thrown to the caller (`none` on success). -/
def addReceiptStore (r : Receipt) (s : StoreState) (b : Backend) :
    (StoreState × Backend) × Option String :=
  let bNew := saveB (addReceiptDraft r) b
  ((loadReceipts s bNew, bNew), none)

/-- Store `updateReceipt`: backend update then full reload on success; on
failure the receipt list and backend are untouched, the store records
`Failed to update receipt` and re-throws the original exception — modelled by the
`Option String` component carrying the thrown message. -/
def updateReceiptStore (id : String) (d : Draft) (s : StoreState) (b : Backend) :
    (StoreState × Backend) × Option String :=
  match updateB id d b with
  | .error e => (({ s with error := some "Failed to update receipt", isLoading := false }, b), some e)
  | .ok bNew => ((loadReceipts s bNew, bNew), none)

/-- Store `deleteReceipt`: backend delete then full reload. -/
def deleteReceiptStore (id : String) (s : StoreState) (b : Backend) :
    (StoreState × Backend) × Option String :=
  let bNew := deleteB id b
  ((loadReceipts s bNew, bNew), none)

/-! ## Adapter read paths with an internal-fault oracle (claim about the
catch blocks of `getAllReceiptsFromDatabase` / `getReceiptById`).  The
`fault` argument stands for any exception raised inside the try block
(connection failure, corrupt JSON, SQL error). -/

def attemptListAll (b : Backend) (fault : Option String) : Except String (List Receipt) :=
  match fault with
  | some e => Except.error e
  | none => Except.ok (listAllB b)

/-- `getAllReceiptsFromDatabase` with its catch block: any internal error is
swallowed and the empty list returned. -/
def getAllReceiptsSafe (b : Backend) (fault : Option String) : List Receipt :=
  match attemptListAll b fault with
  | .ok rs => rs
  | .error _ => []

def attemptGetById (id : String) (b : Backend) (fault : Option String) : Except String (Option Receipt) :=
  match fault with
  | some e => Except.error e
  | none => Except.ok (getByIdB id b)

/-- `getReceiptById` with its catch block: any internal error yields `null`. -/
def getReceiptByIdSafe (id : String) (b : Backend) (fault : Option String) : Option Receipt :=
  match attemptGetById id b fault with
  | .ok r => r
  | .error _ => none

/-- `loadReceipts` over a possibly-faulting underlying read: the adapter
call itself still resolves (with `[]`), so the store's catch is fed an
`ok`. -/
def loadReceiptsSafe (s : StoreState) (b : Backend) (fault : Option String) : StoreState :=
  loadReceiptsWith s (Except.ok (getAllReceiptsSafe b fault))

/-! ## Gemini extraction post-processing (services/geminiVision.ts) -/

/-- Executable model of `String.prototype.trim`: drop whitespace from both
ends (structural recursion so that concrete instances evaluate). -/
def jsTrim (s : String) : String :=
  ⟨((s.data.dropWhile Char.isWhitespace).reverse.dropWhile Char.isWhitespace).reverse⟩

/-- A raw item of the JSON object parsed from the model response. -/
structure RawItem where
  name : Option String
  price : Option ℚ
  quantity : Option ℚ
  category : Option String
deriving DecidableEq

/-- The raw parsed extraction object. -/
structure RawExtracted where
  merchantName : Option String
  date : Option String
  totalAmount : Option ℚ
  taxAmount : Option ℚ
  items : Option (List RawItem)
deriving DecidableEq

/-- A validated item of `ExtractedReceiptData`. -/
structure ExtItem where
  name : String
  price : ℚ
  quantity : ℚ
  category : String
deriving DecidableEq

/-- `ExtractedReceiptData` as returned by `extractReceiptData`. -/
structure ExtractedReceiptData where
  merchantName : String
  date : String
  totalAmount : ℚ
  taxAmount : ℚ
  items : List ExtItem
deriving DecidableEq

/-- The item filter+map of lines 105-112: keep items with a truthy,
non-blank name; default price to 0, quantity to 1, category to `other`. -/
def cleanExtractedItems (raw : Option (List RawItem)) : List ExtItem :=
  ((raw.getD []).filter (fun it =>
      match it.name with
      | none => false
      | some n => ¬ n = "" ∧ ¬ jsTrim n = "")).map (fun it =>
    { name := jsTrim (it.name.getD ""),
      price := (truthyNum it.price).getD 0,
      quantity := (truthyNum it.quantity).getD 1,
      category := (truthyStr it.category).getD "other" })

/-- The successful-parse branch of `extractReceiptData` (lines 93-132):
default the scalar fields, validate the items, and coerce an empty item
list into the single generic `Purchase` item priced at the total.  The
final `Number(..) || 0` re-normalization is idempotent on the already
normalized scalars. -/
def processExtraction (raw : RawExtracted) (today : String) : ExtractedReceiptData :=
  let merchantName := (truthyStr raw.merchantName).getD "Unknown Store"
  let date := (truthyStr raw.date).getD today
  let totalAmount := (truthyNum raw.totalAmount).getD 0
  let taxAmount := (truthyNum raw.taxAmount).getD 0
  let items0 := cleanExtractedItems raw.items
  let items := if items0.length = 0 then
      [{ name := "Purchase", price := totalAmount, quantity := 1, category := "other" }]
    else items0
  { merchantName := merchantName, date := date, totalAmount := totalAmount,
    taxAmount := taxAmount, items := items }

/-- `createFallbackReceiptData`: the synthesized record used when the API
call or JSON parse fails. -/
def createFallbackReceiptData (today : String) : ExtractedReceiptData :=
  { merchantName := "Unknown Store", date := today, totalAmount := 0, taxAmount := 0,
    items := [{ name := "Item (please edit)", price := 0, quantity := 1, category := "other" }] }

/-! ## Edit screen save handler (app/receipt/edit/[id].tsx) -/

/-- `item.name && item.name.trim() && item.price > 0`. -/
def isValidItem (it : Item) : Bool :=
  match it.name with
  | none => false
  | some n => ¬ n = "" ∧ ¬ jsTrim n = "" ∧ it.price.getD 0 > 0

def validItemsOf (items : List Item) : List Item :=
  items.filter isValidItem

/-- The observable outcome of `handleSave`: an alert-and-return for a blank
store name, an alert-and-return for zero valid items, or the payload passed
to `updateReceipt` — the two error outcomes return before any store or
backend call is made. -/
inductive SaveOutcome where
  | storeNameError
  | itemsError
  | saved (updated : Receipt)
deriving DecidableEq

/-- `handleSave`: validate the merchant name, filter to valid items, reject
an empty valid-item set, otherwise hand the filtered payload to
`updateReceipt`. -/
def handleSave (receipt : Receipt) : SaveOutcome :=
  if jsTrim (((truthyStr receipt.merchantName).orElse (fun _ => truthyStr receipt.store)).getD "") = "" then
    SaveOutcome.storeNameError
  else if (validItemsOf receipt.items).length = 0 then
    SaveOutcome.itemsError
  else
    SaveOutcome.saved { receipt with items := validItemsOf receipt.items }

/-! ## Insights aggregator (`getReceiptInsights`, services/database.ts) -/

/-- JS object-keyed accumulation (`breakdown[cat] = (breakdown[cat] || 0) + v`)
as an insertion-ordered association list. -/
def bump : List (String × ℚ) → String → ℚ → List (String × ℚ)
  | [], k, v => [(k, v)]
  | (k₀, v₀) :: rest, k, v =>
    if k₀ = k then (k₀, v₀ + v) :: rest else (k₀, v₀) :: bump rest k v

/-- Sort comparator of `topCategories` (`(a, b) => b.total - a.total`). -/
def catTotalGE (a b : String × ℚ × Nat) : Prop := b.2.1 ≤ a.2.1

instance : DecidableRel catTotalGE := fun a b => inferInstanceAs (Decidable (b.2.1 ≤ a.2.1))

instance : IsTotal (String × ℚ × Nat) catTotalGE := ⟨fun a b => le_total b.2.1 a.2.1⟩

instance : IsTrans (String × ℚ × Nat) catTotalGE := ⟨fun _ _ _ hab hbc => le_trans hbc hab⟩

/-- Per-category item count used to annotate `topCategories`. -/
def categoryCount (receipts : List Receipt) (cat : String) : Nat :=
  receipts.foldl
    (fun acc r => acc + (r.items.filter (fun it => (truthyStr it.category).getD "Other" = cat)).length) 0

structure Insights where
  totalSpending : ℚ
  categoryBreakdown : List (String × ℚ)
  recentTransactions : List Receipt
  totalReceipts : Nat
  averageSpending : ℚ
  topCategories : List (String × ℚ × Nat)
  monthlySpending : List (String × ℚ)
deriving DecidableEq

/-- The body of `getReceiptInsights` as a pure function of the receipt list
it loads. -/
def getReceiptInsightsPure (receipts : List Receipt) : Insights :=
  let totalSpending := receipts.foldl (fun sum r => sum + r.totalAmount.getD 0) 0
  let categoryBreakdown := receipts.foldl
    (fun m r => r.items.foldl
      (fun m it => bump m ((truthyStr it.category).getD "Other") (it.price.getD 0)) m) []
  { totalSpending := totalSpending,
    categoryBreakdown := categoryBreakdown,
    recentTransactions := receipts.take 5,
    totalReceipts := receipts.length,
    averageSpending := if 0 < receipts.length then totalSpending / (receipts.length : ℚ) else 0,
    topCategories := List.insertionSort catTotalGE
      (categoryBreakdown.map (fun kv => (kv.1, kv.2, categoryCount receipts kv.1))),
    monthlySpending := [] }

/-! ## Concrete fixtures used by witnesses and counterexamples -/

def emptyStore : StoreState := { receipts := [], isLoading := false, error := none }

def web0 : WebState := { stored := none, now := 0, todayStr := "2024-01-01" }

def mdb0 : SqliteDb :=
  { receipts := [], receipt_items := [], nextReceiptId := 1, nextItemId := 1,
    now := 0, todayStr := "2024-01-01" }

def itemLatte : Item :=
  { id := some "10", name := some "Latte", quantity := some 1, price := some 9,
    category := some "Dining" }

def rec1 : Receipt :=
  { id := "1", merchantName := some "Cafe X", date := some "2024-01-01",
    totalAmount := some 9, taxAmount := some 1, imageUri := none,
    category := some "Dining", items := [itemLatte], createdAt := some 2,
    updatedAt := some 2, store := none, subtotal := none, tax := none, total := none }

def web1 : WebState := { stored := some [rec1], now := 5, todayStr := "2024-02-01" }

def emptyDraft : Draft :=
  { merchantName := none, date := none, totalAmount := none, total := none,
    taxAmount := none, tax := none, imageUri := none, category := none, items := none }

def dUpd : Draft := { emptyDraft with merchantName := some "Cafe Y" }

def draftA : Draft :=
  { emptyDraft with merchantName := some "First Shop", date := some "2024-01-01",
                    totalAmount := some 5, items := some [itemLatte] }

def draftB : Draft :=
  { emptyDraft with merchantName := some "Second Shop", date := some "2024-01-02",
                    totalAmount := some 7, items := some [itemLatte] }

/-- Two consecutive web saves from the empty store: the push-append order
puts the later receipt last. -/
def webTwo : WebState := saveWeb draftB (saveWeb draftA web0)

/-- A draft whose item set is empty: the adapter persists it unvalidated. -/
def zeroItemDraft : Draft :=
  { emptyDraft with merchantName := some "Cafe X", date := some "2024-01-02",
                    totalAmount := some 5, items := some [] }

/-- A stored web record written by the legacy schema generation: only
`store` / `total` / `tax` are present. -/
def legacyStoredReceipt : Receipt :=
  { id := "7", merchantName := none, date := some "2023-01-01", totalAmount := none,
    taxAmount := none, imageUri := none, category := none, items := [itemLatte],
    createdAt := none, updatedAt := none,
    store := some "Legacy Mart", subtotal := none, tax := some 1, total := some 5 }

def legacyWebState : WebState :=
  { stored := some [legacyStoredReceipt], now := 3, todayStr := "2024-01-01" }

/-- A receipt payload carrying only legacy aliases, fed to the store's
`addReceipt`. -/
def legacyInput : Receipt :=
  { id := "99", merchantName := none, date := some "2023-02-02", totalAmount := none,
    taxAmount := none, imageUri := none, category := none, items := [itemLatte],
    createdAt := none, updatedAt := none,
    store := some "Legacy Mart", subtotal := none, tax := some 1, total := some 5 }

def rawEmptyItems : RawExtracted :=
  { merchantName := some "Shop", date := some "2024-01-01", totalAmount := some 12,
    taxAmount := some 1, items := none }

/-- The id-less observable content of an item (backend-assigned item ids are
not part of the replacement contract). -/
def itemBody (it : Item) : Option String × Option ℚ × Option ℚ × Option String :=
  (it.name, it.quantity, it.price, it.category)

/-- The per-item defaulting the mobile INSERT applies, at the level of
`itemBody`. -/
def normItemBody (it : Item) : Option String × Option ℚ × Option ℚ × Option String :=
  (some ((truthyStr it.name).getD "Unknown Item"),
   some ((truthyNum it.quantity).getD 1),
   some ((truthyNum it.price).getD 0),
   some ((truthyStr it.category).getD "Other"))

/-- A receipt whose single pending item is invalid (blank name, zero
price): the edit screen's filter leaves zero valid items. -/
def invalidItemsReceipt : Receipt :=
  { rec1 with items := [{ id := some "1", name := some "", quantity := some 1,
                          price := some 0, category := none }] }

/-- Draft input for P7: no totals, items priced 10 x 2 and 5 x 1. -/
def draft25Receipt : Receipt :=
  { id := "50", merchantName := some "Mart", date := some "2024-01-03", totalAmount := none,
    taxAmount := none, imageUri := none, category := none,
    items := [{ id := none, name := some "A", quantity := some 2, price := some 10, category := none },
              { id := none, name := some "B", quantity := some 1, price := some 5, category := none }],
    createdAt := none, updatedAt := none, store := none, subtotal := none,
    tax := none, total := none }

/-- A one-receipt SQLite database (receipt 1 with one item `Old`). -/
def mdb7 : SqliteDb :=
  { receipts := [{ id := 1, merchant_name := "Shop", date := "2024-01-01", total_amount := 5,
                   tax_amount := 0, image_uri := none, category := "Other",
                   created_at := 0, updated_at := 0 }],
    receipt_items := [{ id := 1, receipt_id := 1, name := "Old", quantity := 1, price := 5,
                        category := "Other" }],
    nextReceiptId := 2, nextItemId := 2, now := 1, todayStr := "2024-01-05" }

def blankNameItem : Item :=
  { id := none, name := some "", quantity := none, price := some 5, category := none }

def d7cex : Draft := { emptyDraft with items := some [blankNameItem] }

def mdb7cex : SqliteDb := ((updateMobile "1" d7cex mdb7).toOption).getD mdb7

def i2new : List Item :=
  [{ id := none, name := some "New", quantity := some 2, price := some 3,
     category := some "Dining" }]

def d7 : Draft := { emptyDraft with items := some i2new }

def mdb7upd : SqliteDb := ((updateMobile "1" d7 mdb7).toOption).getD mdb7

def web7 : WebState := { stored := some [rec1], now := 8, todayStr := "2024-02-02" }

def web7upd : WebState := ((updateWeb "1" d7 web7).toOption).getD web7

/-! # Theorems -/

/-- A truthy string projection hitting `some` pins the original value and
its non-emptiness. -/
theorem truthyStr_eq_some {o : Option String} {v : String} (h : truthyStr o = some v) :
    o = some v ∧ ¬ v = "" := by
  cases o with
  | none => exact absurd h (by simp [truthyStr])
  | some s =>
    by_cases hs : s = ""
    · simp [truthyStr, hs] at h
    · simp only [truthyStr, if_neg hs, Option.some.injEq] at h
      subst h
      exact ⟨rfl, hs⟩

/-- A truthy number projection hitting `some` pins the original value and
its non-zeroness. -/
theorem truthyNum_eq_some {o : Option ℚ} {q : ℚ} (h : truthyNum o = some q) :
    o = some q ∧ ¬ q = 0 := by
  cases o with
  | none => exact absurd h (by simp [truthyNum])
  | some v =>
    by_cases hv : v = 0
    · simp [truthyNum, hv] at h
    · simp only [truthyNum, if_neg hv, Option.some.injEq] at h
      subst h
      exact ⟨rfl, hv⟩

/-- `find?` commutes with an in-place map that preserves the predicate. -/
theorem find?_map_of_pred {α : Type} (p : α → Bool) (f : α → α) (l : List α)
    (hf : ∀ a, p (f a) = p a) :
    (l.map f).find? p = (l.find? p).map f := by
  induction l with
  | nil => rfl
  | cons a rest ih =>
    cases hpa : p a with
    | true =>
      rw [List.map_cons, List.find?_cons_of_pos _ ((hf a).trans hpa),
          List.find?_cons_of_pos _ hpa, Option.map_some']
    | false =>
      rw [List.map_cons, List.find?_cons_of_neg _ (by simp [hf a, hpa]),
          List.find?_cons_of_neg _ (by simp [hpa])]
      exact ih

/-- `find?` after replacing the first predicate hit with a hit-preserving
patch is the patched original hit. -/
theorem find?_updateFirst {α : Type} (p : α → Bool) (f : α → α) (l : List α)
    (hf : ∀ a, p (f a) = p a) :
    (updateFirst p f l).find? p = (l.find? p).map f := by
  induction l with
  | nil => rfl
  | cons a rest ih =>
    cases hpa : p a with
    | true =>
      rw [updateFirst, if_pos hpa, List.find?_cons_of_pos _ ((hf a).trans hpa),
          List.find?_cons_of_pos _ hpa, Option.map_some']
    | false =>
      rw [updateFirst, if_neg (by simp [hpa]), List.find?_cons_of_neg _ (by simp [hpa]),
          List.find?_cons_of_neg _ (by simp [hpa])]
      exact ih

/-- The mobile UPDATE never changes a row's primary key. -/
theorem applyUpdRow_id (f : SaveFields) (now n : Nat) (r : DbReceiptRow) :
    (applyUpdRow f now n r).id = r.id := by
  unfold applyUpdRow
  split <;> rfl

/-- The web update patch never changes a record's id. -/
theorem applyUpdWeb_id (f : SaveFields) (now : Nat) (r : Receipt) :
    (applyUpdWeb f now r).id = r.id := rfl

/-- Every row the item-insert loop produces is keyed to the given receipt,
so a `WHERE receipt_id = ?` filter keeps them all. -/
theorem insertItemRows_filter_rid (items : List Item) (nid rid : Nat) :
    ((insertItemRows items nid rid).1).filter (fun row => row.receipt_id = rid)
      = (insertItemRows items nid rid).1 := by
  induction items generalizing nid with
  | nil => rfl
  | cons it rest ih => simp [insertItemRows, List.filter_cons, ih]

/-- The id-less content of the inserted item rows, read back through
`rowToItem`, is the input items after per-field defaulting. -/
theorem insertItemRows_body (items : List Item) (nid rid : Nat) :
    ((insertItemRows items nid rid).1).map (fun row => itemBody (rowToItem row))
      = items.map normItemBody := by
  induction items generalizing nid with
  | nil => rfl
  | cons it rest ih =>
    simp only [insertItemRows, List.map_cons, ih]
    rfl

/-- C1: every mutating store operation (`addReceipt`, `updateReceipt`,
`deleteReceipt`) performs the backend write and then a full reload, so once
the call resolves successfully (no re-thrown error) the in-memory receipts
list equals what the Storage Adapter's `getAllReceiptsFromDatabase` returns
from a fresh read of the post-write backend; the in-memory list is never
patched directly. -/
theorem store_mutations_reload_from_backend (r : Receipt) (id : String) (d : Draft)
    (s : StoreState) (b : Backend) :
    (addReceiptStore r s b).1.1.receipts = listAllB (addReceiptStore r s b).1.2
  ∧ (deleteReceiptStore id s b).1.1.receipts = listAllB (deleteReceiptStore id s b).1.2
  ∧ ((updateReceiptStore id d s b).2 = none →
      (updateReceiptStore id d s b).1.1.receipts = listAllB (updateReceiptStore id d s b).1.2) := by
  refine ⟨rfl, rfl, ?_⟩
  intro h
  cases hu : updateB id d b with
  | error e => simp [updateReceiptStore, hu] at h
  | ok bNew => simp [updateReceiptStore, hu, loadReceipts, loadReceiptsWith]

/-- Witness for C1: a concrete successful `updateReceipt` on the web
backend leaves the store's list equal to a fresh `listAll`. -/
theorem store_mutations_reload_from_backend_witness :
    (updateReceiptStore "1" dUpd emptyStore (Backend.web web1)).1.1.receipts
      = listAllB (updateReceiptStore "1" dUpd emptyStore (Backend.web web1)).1.2 :=
  (store_mutations_reload_from_backend rec1 "1" dUpd emptyStore (Backend.web web1)).2.2
    (by decide)

/-- C2 (amended): on the relational (mobile) variant `listAll` returns the
receipts ordered by creation time descending (each with its items attached
by construction of `rowToReceipt`), but the document-blob (web) variant
returns the stored array verbatim — insertion order, i.e. creation time
ascending — so the descending guarantee holds only on the relational
variant. -/
theorem listAll_ordering_by_backend (db : SqliteDb) (wst : WebState) :
    (getAllReceiptsMobile db).Pairwise
      (fun x y => y.createdAt.getD 0 ≤ x.createdAt.getD 0)
  ∧ getAllReceiptsWeb wst = wst.stored.getD [] := by
  constructor
  · have hs : List.Sorted rowLaterEq (List.insertionSort rowLaterEq db.receipts) :=
      List.sorted_insertionSort rowLaterEq db.receipts
    simp only [getAllReceiptsMobile]
    exact List.Pairwise.map (rowToReceipt db)
      (fun a b hab => by simpa [rowToReceipt, rowLaterEq] using hab) hs
  · rfl

/-- Counterexample for C2 as stated: two consecutive saves on the web
backend are listed oldest-first, so the returned list is not ordered by
creation time descending. -/
theorem listAll_web_not_desc_cex :
    ((getAllReceiptsWeb webTwo).map (fun rec => rec.createdAt)) = [some 0, some 1]
  ∧ ¬ ((getAllReceiptsWeb webTwo).Pairwise
        (fun x y => y.createdAt.getD 0 ≤ x.createdAt.getD 0)) := by
  constructor
  · rfl
  · decide

/-- C5: an extraction result whose items come out empty after per-item
validation filtering is coerced to exactly one `Purchase` item priced at
the receipt's `totalAmount` with quantity 1, and the synthesized fallback
record likewise carries exactly one item whose price equals its
`totalAmount`. -/
theorem zero_item_extraction_coerced (raw : RawExtracted) (today : String)
    (h : cleanExtractedItems raw.items = []) :
    (processExtraction raw today).items =
      [{ name := "Purchase", price := (processExtraction raw today).totalAmount,
         quantity := 1, category := "other" }]
  ∧ (createFallbackReceiptData today).items =
      [{ name := "Item (please edit)", price := (createFallbackReceiptData today).totalAmount,
         quantity := 1, category := "other" }] := by
  refine ⟨?_, rfl⟩
  simp [processExtraction, h]

/-- Witness for C5 at a concrete extraction with no items array. -/
theorem zero_item_extraction_coerced_witness :
    (processExtraction rawEmptyItems "2024-03-01").items =
      [{ name := "Purchase", price := (processExtraction rawEmptyItems "2024-03-01").totalAmount,
         quantity := 1, category := "other" }] :=
  (zero_item_extraction_coerced rawEmptyItems "2024-03-01" rfl).1

/-- C6: for an id that does not resolve to an existing record, `getById`
yields the null signal (`none`, the hypothesis), `update` raises
`Receipt not found`, and — the NotFound check happening before any backend
write — the backend state and the store's in-memory list are unchanged
while the store re-throws. -/
theorem missing_id_null_update_not_found (b : Backend) (id : String) (d : Draft)
    (s : StoreState) (h : getByIdB id b = none) :
    updateB id d b = Except.error "Receipt not found"
  ∧ (updateReceiptStore id d s b).1.2 = b
  ∧ (updateReceiptStore id d s b).1.1.receipts = s.receipts
  ∧ (updateReceiptStore id d s b).2 = some "Receipt not found" := by
  have hu : updateB id d b = Except.error "Receipt not found" := by
    cases b with
    | web st =>
      simp only [getByIdB] at h
      simp [updateB, updateWeb, h]
    | mobile db =>
      simp only [getByIdB, getByIdMobile, Option.map_eq_none'] at h
      simp [updateB, updateMobile, h]
  refine ⟨hu, ?_, ?_, ?_⟩ <;> simp [updateReceiptStore, hu]

/-- Witness for C6 on a concrete empty web backend and a missing id. -/
theorem missing_id_null_update_not_found_witness :
    updateB "9" dUpd (Backend.web web0) = Except.error "Receipt not found"
  ∧ (updateReceiptStore "9" dUpd emptyStore (Backend.web web0)).1.2 = Backend.web web0
  ∧ (updateReceiptStore "9" dUpd emptyStore (Backend.web web0)).1.1.receipts
      = emptyStore.receipts
  ∧ (updateReceiptStore "9" dUpd emptyStore (Backend.web web0)).2
      = some "Receipt not found" :=
  missing_id_null_update_not_found (Backend.web web0) "9" dUpd emptyStore (by decide)

/-- C9: the insights aggregator on the empty receipt list returns zero total
spending, zero average spending and no top categories (and, in general,
`averageSpending` is the quotient only when the count is positive and `0`
when the count is zero, so no division by zero is performed). -/
theorem insights_empty_and_average (rs : List Receipt) :
    (getReceiptInsightsPure []).totalSpending = 0
  ∧ (getReceiptInsightsPure []).averageSpending = 0
  ∧ (getReceiptInsightsPure []).topCategories = []
  ∧ (getReceiptInsightsPure rs).averageSpending =
      (if 0 < rs.length then (getReceiptInsightsPure rs).totalSpending / (rs.length : ℚ) else 0) :=
  ⟨rfl, rfl, rfl, rfl⟩

/-- C10: any error raised inside the adapter's read paths is swallowed —
`getAllReceiptsFromDatabase` returns `[]` and `getReceiptById` returns
`null` — so a backend read failure is indistinguishable from an empty store
or a missing id, the store's load-failure error path stays untaken
(`error = none`), and a reload over a failing read replaces the in-memory
list with `[]` rather than leaving it untouched.  Without a fault the reads
are the plain `listAll` / `getById`. -/
theorem adapter_reads_never_propagate_failure (b : Backend) (s : StoreState) (id e : String) :
    getAllReceiptsSafe b (some e) = []
  ∧ getReceiptByIdSafe id b (some e) = none
  ∧ (loadReceiptsSafe s b (some e)).receipts = []
  ∧ (loadReceiptsSafe s b (some e)).error = none
  ∧ getAllReceiptsSafe b none = listAllB b
  ∧ getReceiptByIdSafe id b none = getByIdB id b :=
  ⟨rfl, rfl, rfl, rfl, rfl, rfl⟩

/-- Counterexample for C4 as stated: the Storage Adapter's save performs no
validation — a payload whose item set is empty is persisted without any
caller-visible failure on both backends, yielding a stored receipt with
zero items. -/
theorem adapter_persists_zero_items_cex :
    ((saveWeb zeroItemDraft web0).stored.getD []).map (fun rec => rec.items) = [[]]
  ∧ ((saveMobile zeroItemDraft mdb0).receipts.map (fun row => row.merchant_name)) = ["Cafe X"]
  ∧ (saveMobile zeroItemDraft mdb0).receipt_items = [] := by
  decide

/-- C4 (amended): the required-field validation (blank store name, zero
valid items after filtering) lives only in the edit screen's `handleSave`,
which alerts and returns — before the store or any backend is called — in
exactly those two cases, and otherwise hands `updateReceipt` the payload
restricted to the valid items (necessarily non-empty); the adapter's own
write operations perform no such validation (see the counterexample). -/
theorem validation_only_in_edit_screen (r : Receipt) :
    (jsTrim (((truthyStr r.merchantName).orElse (fun _ => truthyStr r.store)).getD "") = "" →
        handleSave r = SaveOutcome.storeNameError)
  ∧ (jsTrim (((truthyStr r.merchantName).orElse (fun _ => truthyStr r.store)).getD "") ≠ "" →
      validItemsOf r.items = [] → handleSave r = SaveOutcome.itemsError)
  ∧ (∀ u, handleSave r = SaveOutcome.saved u →
        u.items = validItemsOf r.items ∧ validItemsOf r.items ≠ []) := by
  refine ⟨?_, ?_, ?_⟩
  · intro h
    simp [handleSave, h]
  · intro h h2
    simp [handleSave, h, h2]
  · intro u hu
    unfold handleSave at hu
    split at hu
    · simp at hu
    · split at hu
      · simp at hu
      · rename_i h2
        simp only [SaveOutcome.saved.injEq] at hu
        subst hu
        refine ⟨rfl, fun hnil => h2 ?_⟩
        simp [hnil]

/-- Witness for C4 (amended): a receipt whose only item has a blank name
and zero price is rejected by `handleSave` with the items error, before any
update call. -/
theorem validation_only_in_edit_screen_witness :
    handleSave invalidItemsReceipt = SaveOutcome.itemsError :=
  (validation_only_in_edit_screen invalidItemsReceipt).2.1 (by decide) (by decide)

/-- C8: for a draft with falsy `totalAmount` and legacy `total` but a
non-empty item list, `addReceipt` persists a total equal to the source's
`reduce` of `price * quantity` over the items, on both backends. -/
theorem addReceipt_derives_total_from_items (r : Receipt) (wst : WebState) (db : SqliteDb)
    (h1 : truthyNum r.totalAmount = none) (h2 : truthyNum r.total = none)
    (h3 : 0 < r.items.length) :
    (((saveWeb (addReceiptDraft r) wst).stored.getD []).getLast?).map (fun rec => rec.totalAmount)
      = some (some (itemsTotal r.items))
  ∧ ((saveMobile (addReceiptDraft r) db).receipts.getLast?).map (fun row => row.total_amount)
      = some (itemsTotal r.items) := by
  have hdraft : (addReceiptDraft r).totalAmount = some (itemsTotal r.items) := by
    simp [addReceiptDraft, h1, h2, h3]
  have hdtot : (addReceiptDraft r).total = none := rfl
  have hsf : ∀ today, (saveDefaults (addReceiptDraft r) today).totalAmount
      = itemsTotal r.items := by
    intro today
    by_cases hT : itemsTotal r.items = 0
    · simp [saveDefaults, hdraft, hdtot, truthyNum, hT]
    · simp [saveDefaults, hdraft, hdtot, truthyNum, hT]
  constructor
  · simp [saveWeb, List.getLast?_concat, hsf]
  · simp [saveMobile, List.getLast?_concat, hsf]

/-- Witness for C8 at the spec's concrete P7 draft: items 10 x 2 and 5 x 1
persist a web total of exactly 25. -/
theorem addReceipt_derives_total_from_items_witness :
    (((saveWeb (addReceiptDraft draft25Receipt) web0).stored.getD []).getLast?).map
        (fun rec => rec.totalAmount) = some (some 25) := by
  have h := (addReceipt_derives_total_from_items draft25Receipt web0 mdb0 rfl rfl
    (by decide)).1
  have h25 : itemsTotal draft25Receipt.items = 25 := by
    simp only [itemsTotal, draft25Receipt, List.foldl_cons, List.foldl_nil, Option.getD_some]
    norm_num
  rw [h25] at h
  exact h

/-- Counterexample for C3 as stated: a stored document-blob record carrying
only legacy names is returned verbatim by `listAll` and `getById` — its
`merchantName` is absent, not equal to the stored `store` value. -/
theorem read_path_no_alias_normalization_cex :
    (getAllReceiptsWeb legacyWebState).map (fun rec => rec.merchantName) = [none]
  ∧ (getByIdWeb "7" legacyWebState).map (fun rec => rec.merchantName) = some none
  ∧ legacyStoredReceipt.store = some "Legacy Mart"
  ∧ ¬ ((getAllReceiptsWeb legacyWebState).map (fun rec => rec.merchantName)
        = [legacyStoredReceipt.store]) := by
  decide

/-- C3 (amended): the adapter's read paths perform no inbound alias
normalization — the document-blob variant returns stored records verbatim
(and the relational schema only has current-named columns) — while the
legacy/current preference (current name first, legacy value when the
current one is absent or falsy) is applied on the write path: a payload
carrying only legacy `store` / `total` / `tax` values is persisted through
the store's `addReceipt` with `merchantName = store`, `totalAmount = total`
and `taxAmount = tax` on both backends. -/
theorem alias_preference_applied_at_write (wst : WebState) (db : SqliteDb) (r : Receipt)
    (m : String) (t x : ℚ)
    (hm : truthyStr r.merchantName = none) (hs : truthyStr r.store = some m)
    (h1 : truthyNum r.totalAmount = none) (h2 : truthyNum r.total = some t)
    (h3 : truthyNum r.taxAmount = none) (h4 : truthyNum r.tax = some x) :
    getAllReceiptsWeb wst = wst.stored.getD []
  ∧ (((saveWeb (addReceiptDraft r) wst).stored.getD []).getLast?).map
        (fun rec => (rec.merchantName, rec.totalAmount, rec.taxAmount))
      = some (some m, some t, some x)
  ∧ ((saveMobile (addReceiptDraft r) db).receipts.getLast?).map
        (fun row => (row.merchant_name, row.total_amount, row.tax_amount))
      = some (m, t, x) := by
  obtain ⟨hm2, hmne⟩ := truthyStr_eq_some hs
  obtain ⟨ht2, htne⟩ := truthyNum_eq_some h2
  obtain ⟨hx2, hxne⟩ := truthyNum_eq_some h4
  have hdm : (addReceiptDraft r).merchantName = some m := by
    simp [addReceiptDraft, hm, hs]
  have hdt : (addReceiptDraft r).totalAmount = some t := by
    simp [addReceiptDraft, h1, h2]
  have hdtot : (addReceiptDraft r).total = none := rfl
  have hdx : (addReceiptDraft r).taxAmount = some x := by
    simp [addReceiptDraft, h3, h4]
  have hsf : ∀ today, (saveDefaults (addReceiptDraft r) today).merchantName = m
      ∧ (saveDefaults (addReceiptDraft r) today).totalAmount = t
      ∧ (saveDefaults (addReceiptDraft r) today).taxAmount = x := by
    intro today
    refine ⟨?_, ?_, ?_⟩
    · simp [saveDefaults, hdm, truthyStr, hmne]
    · simp [saveDefaults, hdt, hdtot, truthyNum, htne]
    · simp [saveDefaults, hdx, truthyNum, hxne]
  refine ⟨rfl, ?_, ?_⟩
  · simp [saveWeb, List.getLast?_concat, (hsf _).1, (hsf _).2.1, (hsf _).2.2]
  · simp [saveMobile, List.getLast?_concat, (hsf _).1, (hsf _).2.1, (hsf _).2.2]

/-- Witness for C3 (amended): the concrete legacy-only payload is persisted
on the web backend with the alias values promoted to the current names. -/
theorem alias_preference_applied_at_write_witness :
    (((saveWeb (addReceiptDraft legacyInput) web0).stored.getD []).getLast?).map
        (fun rec => (rec.merchantName, rec.totalAmount, rec.taxAmount))
      = some (some "Legacy Mart", some 5, some 1) :=
  (alias_preference_applied_at_write web0 mdb0 legacyInput "Legacy Mart" 5 1
    (by decide) (by decide) (by decide) (by decide) (by decide) (by decide)).2.1

/-- Counterexample for C7 as stated: on the relational variant the new
item set is normalized per item on INSERT, so updating with an item whose
name is the empty string reads back as `Unknown Item` — not exactly the
item of I2. -/
theorem update_normalizes_degenerate_items_cex :
    ((getByIdMobile "1" mdb7cex).map (fun rec => rec.items.map (fun it => it.name)))
      = some [some "Unknown Item"]
  ∧ ¬ (((getByIdMobile "1" mdb7cex).map (fun rec => rec.items.map (fun it => it.name)))
      = some [blankNameItem.name]) := by
  decide

/-- C7 (amended): `update(id, {items: I2})` fully replaces the persisted
item set on both variants — a subsequent `getById(id)` returns one item per
I2 entry, in order, with no item from the prior set surviving: verbatim I2
on the document-blob variant, and I2 after the INSERT-time per-field
defaulting (`name || 'Unknown Item'`, `quantity || 1`, `price || 0`,
`category || 'Other'`, fresh backend ids) on the relational variant. -/
theorem update_replaces_item_set (db : SqliteDb) (wst : WebState) (id : String)
    (d : Draft) (I2 : List Item) (hI : d.items = some I2) :
    (∀ db2, updateMobile id d db = Except.ok db2 →
        (getByIdMobile id db2).map (fun rec => rec.items.map itemBody)
          = some (I2.map normItemBody))
  ∧ (∀ wst2, updateWeb id d wst = Except.ok wst2 →
        (getByIdWeb id wst2).map (fun rec => rec.items) = some I2) := by
  constructor
  · intro db2 h
    cases hfind : db.receipts.find? (fun row => parseId id = some row.id) with
    | none =>
      simp only [updateMobile, hfind] at h
      exact Except.noConfusion h
    | some row =>
      simp only [updateMobile, hfind] at h
      injection h with h2
      subst h2
      have hI2 : (updateFallback d (rowToReceipt db row) db.todayStr).items = I2 := by
        simp [updateFallback, hI]
      rw [hI2]
      have hrem : (db.receipt_items.filter (fun it => ¬ it.receipt_id = row.id)).filter
          (fun it => it.receipt_id = row.id) = [] := by
        rw [List.filter_eq_nil_iff]
        intro a ha
        have h3 := (List.mem_filter.mp ha).2
        simp only [decide_not, Bool.not_eq_true', decide_eq_false_iff_not] at h3
        simp [h3]
      simp only [getByIdMobile]
      rw [find?_map_of_pred _ _ _ (fun a => by rw [applyUpdRow_id]), hfind]
      simp only [Option.map_some', rowToReceipt, itemsFor, applyUpdRow_id]
      rw [List.filter_append, hrem, insertItemRows_filter_rid, List.nil_append,
          List.map_map]
      simpa [Function.comp] using insertItemRows_body I2 db.nextItemId row.id
  · intro wst2 h
    cases hfind : getByIdWeb id wst with
    | none =>
      simp only [updateWeb, hfind] at h
      exact Except.noConfusion h
    | some existing =>
      simp only [updateWeb, hfind] at h
      injection h with h2
      subst h2
      have hI2 : (updateFallback d existing wst.todayStr).items = I2 := by
        simp [updateFallback, hI]
      simp only [getByIdWeb] at hfind ⊢
      rw [Option.getD_some, find?_updateFirst _ _ _ (fun a => by rw [applyUpdWeb_id]), hfind,
          Option.map_some', Option.map_some']
      simp [applyUpdWeb, hI2]

/-- Witness for C7 (amended): a concrete successful item-replacing update
on each backend. -/
theorem update_replaces_item_set_witness :
    ((getByIdMobile "1" mdb7upd).map (fun rec => rec.items.map itemBody)
        = some (i2new.map normItemBody))
  ∧ ((getByIdWeb "1" web7upd).map (fun rec => rec.items) = some i2new) := by
  constructor
  · exact (update_replaces_item_set mdb7 web7 "1" d7 i2new rfl).1 mdb7upd rfl
  · exact (update_replaces_item_set mdb7 web7 "1" d7 i2new rfl).2 web7upd rfl

end ReceiptApp
